import Mathlib

/-!
Shallow embedding of the RPC transport-and-dispatch core of the repository
(src/rpc/virnetserver.c and src/rpc/virnetsocket.c).  External collaborators
(thread pool, JSON values, client objects, SASL and TLS session objects, the
operating system) are represented by explicit parameters recording the outcome
of each call, so every embedded function is a pure, executable Lean function
whose branches mirror the C control flow line by line.
-/

namespace LibvirtRPC

/-! ## Message kinds (virnetprotocol: virNetMessageType) -/

/-- The message kinds carried in a frame header. -/
inductive MsgType where
  | call
  | reply
  | message
  | stream
  | callWithFds
  | replyWithFds
deriving DecidableEq, Repr

/-- The test performed by virNetServerProcessMsg: the header type is
VIR_NET_CALL or VIR_NET_CALL_WITH_FDS. -/
def isCallKind : MsgType → Bool
  | .call => true
  | .callWithFds => true
  | _ => false

/-- A frame handed to the Connection (client) send path during processing. -/
inductive SentFrame where
  /-- the synthesized unknown-program error reply
      (virNetServerProgramUnknownError) -/
  | unknownProgError
  /-- the inbound frame, cleared and re-typed VIR_NET_REPLY, resent to free
      the message and unblock client rx -/
  | dummyReply
  /-- control handed to the matched program dispatcher
      (virNetServerProgramDispatch) -/
  | programDispatch
deriving DecidableEq, Repr

/-- virNetServerProcessMsg (virnetserver.c:143).  `matched` is whether a
Program matched the frame (prog non-NULL); `unknownErrOk`, `sendOk` and
`dispatchOk` record the outcomes of the external calls
virNetServerProgramUnknownError, virNetServerClientSendMessage and
virNetServerProgramDispatch.  Returns the C result together with the list of
frames handed to the Connection send path. -/
def virNetServerProcessMsg (matched : Bool) (htype : MsgType)
    (unknownErrOk sendOk dispatchOk : Bool) : Int × List SentFrame :=
  if !matched then
    if isCallKind htype then
      -- send back an error reply for call kinds
      if unknownErrOk then (0, [SentFrame.unknownProgError]) else (-1, [])
    else
      -- log and drop, then send a dummy reply to free msg and unblock rx
      if sendOk then (0, [SentFrame.dummyReply]) else (-1, [])
  else
    if dispatchOk then (0, [SentFrame.programDispatch])
    else (-1, [SentFrame.programDispatch])

/-! ## Wire reads and writes (virnetsocket.c:1273, virNetSocketReadWire and
virNetSocketWriteWire).  A socket call outcome is either a failed syscall
with a distinguished errno (EINTR, EAGAIN, other), or a byte count. -/

/-- One outcome of the underlying read or write syscall (or of the TLS
record-layer call standing in for it once a handshake has completed). -/
inductive WireOut where
  | eintr
  | eagain
  | fail
  | bytes (n : Nat)
deriving DecidableEq, Repr

/-- The result the wire functions hand back: a byte count (0 meaning
would-block), or an error.  `annotated` records whether the reported error
carried captured error-stream text. -/
inductive RWRes where
  | ok (n : Nat)
  | errSys (annotated : Bool)
  | errEof (annotated : Bool)
deriving DecidableEq, Repr

/-- virNetSocketReadWire (virnetsocket.c:1273), on a socket with no SSH
session.  `errfdPresent` is sock->errfd != -1 and `errTextCaptured` is
whether virFileReadLimFD succeeded and produced a non-NULL text.  The list
holds the successive syscall outcomes of the reread loop; `none` is the
(unreachable in practice) case where every outcome is EINTR. -/
def virNetSocketReadWire (errfdPresent errTextCaptured : Bool) :
    List WireOut → Option RWRes
  | [] => none
  | WireOut.eintr :: rest => virNetSocketReadWire errfdPresent errTextCaptured rest
  | WireOut.eagain :: _ => some (RWRes.ok 0)
  | WireOut.fail :: _ => some (RWRes.errSys (errfdPresent && errTextCaptured))
  | WireOut.bytes 0 :: _ => some (RWRes.errEof (errfdPresent && errTextCaptured))
  | WireOut.bytes (n + 1) :: _ => some (RWRes.ok (n + 1))

/-- virNetSocketWriteWire (virnetsocket.c:1329), on a socket with no SSH
session.  The error-stream capture is not consulted on the write path. -/
def virNetSocketWriteWire : List WireOut → Option RWRes
  | [] => none
  | WireOut.eintr :: rest => virNetSocketWriteWire rest
  | WireOut.eagain :: _ => some (RWRes.ok 0)
  | WireOut.fail :: _ => some (RWRes.errSys false)
  | WireOut.bytes 0 :: _ => some (RWRes.errEof false)
  | WireOut.bytes (n + 1) :: _ => some (RWRes.ok (n + 1))

/-! ## Server model (virnetserver.c) -/

/-- The worker pool parameters fixed at construction (threadpool.c getters
virThreadPoolGetMinWorkers, virThreadPoolGetMaxWorkers,
virThreadPoolGetPriorityWorkers read them back). -/
structure ThreadPool where
  minWorkers : Nat
  maxWorkers : Nat
  prioWorkers : Nat
deriving DecidableEq, Repr

/-- virThreadPoolGetMinWorkers; the NULL pool is outside the modelled
domain (the C code would dereference it), mapped to 0 here. -/
def virThreadPoolGetMinWorkers : Option ThreadPool → Nat
  | some p => p.minWorkers
  | none => 0

/-- virThreadPoolGetMaxWorkers with the same convention. -/
def virThreadPoolGetMaxWorkers : Option ThreadPool → Nat
  | some p => p.maxWorkers
  | none => 0

/-- virThreadPoolGetPriorityWorkers with the same convention. -/
def virThreadPoolGetPriorityWorkers : Option ThreadPool → Nat
  | some p => p.prioWorkers
  | none => 0

/-- The observable state of a Connection (client) object as far as the
Server-side code under verification manipulates it.  `refs` is the strong
reference count of the object. -/
structure Client where
  initialized : Bool
  dispatcherSet : Bool
  keepaliveSet : Bool
  kaInterval : Nat
  kaCount : Nat
  closed : Bool
  refs : Nat
deriving DecidableEq, Repr

/-- A freshly constructed client object (virNetServerClientNew): one
reference held by the creator, nothing installed yet. -/
def freshClient : Client :=
  { initialized := false
    dispatcherSet := false
    keepaliveSet := false
    kaInterval := 0
    kaCount := 0
    closed := false
    refs := 1 }

/-- The Server aggregate (struct _virNetServer), restricted to the fields the
claims touch.  Services are abstracted to opaque tokens since their
sub-documents are assumed to round-trip. -/
structure Server where
  workers : Option ThreadPool
  nclientsMax : Nat
  keepaliveInterval : Nat
  keepaliveCount : Nat
  keepaliveRequired : Bool
  mdnsGroupName : Option String
  services : List Nat
  clients : List Client
deriving DecidableEq, Repr

/-- virNetServerNew (virnetserver.c:358): a pool object exists only when
max_workers is nonzero; signal setup, mDNS and mutex init side effects are
not modelled (their failure aborts construction without touching the fields
below). -/
def virNetServerNew (minW maxW prioW maxC kaInterval kaCount : Nat)
    (kaRequired : Bool) (mdns : Option String) : Server :=
  { workers := if maxW ≠ 0 then some ⟨minW, maxW, prioW⟩ else none
    nclientsMax := maxC
    keepaliveInterval := kaInterval
    keepaliveCount := kaCount
    keepaliveRequired := kaRequired
    mdnsGroupName := mdns
    services := []
    clients := [] }

/-- Result of virNetServerAddClient. -/
inductive AddClientRes where
  | ok
  | errCapacity
  | errInit
  | errOom
deriving DecidableEq, Repr

/-- virNetServerAddClient (virnetserver.c:265).  `initOk` is the outcome of
virNetServerClientInit, `allocOk` of VIR_EXPAND_N.  Returns the result code,
the new server state and the final state of the client object. -/
def virNetServerAddClient (srv : Server) (c : Client) (initOk allocOk : Bool) :
    AddClientRes × Server × Client :=
  if srv.clients.length ≥ srv.nclientsMax then
    -- Too many active clients, dropping connection
    (AddClientRes.errCapacity, srv, c)
  else if !initOk then
    (AddClientRes.errInit, srv, c)
  else
    let c1 := { c with initialized := true }
    if !allocOk then
      (AddClientRes.errOom, srv, c1)
    else
      let c2 := { c1 with
        refs := c1.refs + 1
        dispatcherSet := true
        keepaliveSet := true
        kaInterval := srv.keepaliveInterval
        kaCount := srv.keepaliveCount }
      (AddClientRes.ok, { srv with clients := srv.clients ++ [c2] }, c2)

/-- virNetServerDispatchNewClient (virnetserver.c:302).  `newOk` is the
outcome of virNetServerClientNew.  On AddClient failure the transient client
is closed and its creator reference dropped.  Returns the C result, the
server state and the final state of the transient client object. -/
def virNetServerDispatchNewClient (srv : Server) (newOk initOk allocOk : Bool) :
    Int × Server × Option Client :=
  if !newOk then (-1, srv, none)
  else
    match virNetServerAddClient srv freshClient initOk allocOk with
    | (AddClientRes.ok, srv2, c2) =>
        -- the creator reference is dropped; the entry in the server list is
        -- the same object, so its stored state reflects the drop
        let c3 := { c2 with refs := c2.refs - 1 }
        (0, { srv2 with clients := srv2.clients.dropLast ++ [c3] }, some c3)
    | (_, srv2, c2) =>
        (-1, srv2, some { c2 with closed := true, refs := c2.refs - 1 })

/-- virNetServerAddService (virnetserver.c:984) on the path used by exec
restart (mdnsEntryName NULL, allocation success). -/
def virNetServerAddService (srv : Server) (svc : Nat) : Server :=
  { srv with services := srv.services ++ [svc] }

/-- The exec-restart document produced by virNetServerPreExecRestart.  The
per-service and per-client sub-documents are assumed to round-trip, so they
are carried verbatim. -/
structure ExecRestartDoc where
  min_workers : Nat
  max_workers : Nat
  priority_workers : Nat
  max_clients : Nat
  keepaliveInterval : Nat
  keepaliveCount : Nat
  keepaliveRequired : Bool
  mdnsGroupName : Option String
  services : List Nat
  clients : List Client
deriving DecidableEq, Repr

/-- virNetServerPreExecRestart (virnetserver.c:599) on the success path
(every JSON append succeeds). -/
def virNetServerPreExecRestart (srv : Server) : ExecRestartDoc :=
  { min_workers := virThreadPoolGetMinWorkers srv.workers
    max_workers := virThreadPoolGetMaxWorkers srv.workers
    priority_workers := virThreadPoolGetPriorityWorkers srv.workers
    max_clients := srv.nclientsMax
    keepaliveInterval := srv.keepaliveInterval
    keepaliveCount := srv.keepaliveCount
    keepaliveRequired := srv.keepaliveRequired
    mdnsGroupName := srv.mdnsGroupName
    services := srv.services
    clients := srv.clients }

/-- The client loop of virNetServerNewPostExecRestart: each reconstructed
client goes through virNetServerAddClient; any failure aborts the whole
reconstruction. -/
def restartAddClients : Server → List Client → Option Server
  | srv, [] => some srv
  | srv, c :: rest =>
      match virNetServerAddClient srv c true true with
      | (AddClientRes.ok, srv2, _) => restartAddClients srv2 rest
      | _ => none

/-- virNetServerNewPostExecRestart (virnetserver.c:450) on the path where the
document is well formed.  NOTE: the source passes max_clients in the
max_workers argument position of virNetServerNew (line 514); the parsed
max_workers value is never used.  The embedding reproduces that call
faithfully. -/
def virNetServerNewPostExecRestart (doc : ExecRestartDoc) : Option Server :=
  let srv0 := virNetServerNew doc.min_workers doc.max_clients
      doc.priority_workers doc.max_clients doc.keepaliveInterval
      doc.keepaliveCount doc.keepaliveRequired doc.mdnsGroupName
  let srv1 := doc.services.foldl virNetServerAddService srv0
  restartAddClients srv1 doc.clients

/-! ## Dispatch and job reference counting (virnetserver.c:186, 210) -/

/-- The strong reference counts of the Connection object and of the matched
Program object, as manipulated by the dispatch path. -/
structure RefCounts where
  client : Nat
  prog : Nat
deriving DecidableEq, Repr

/-- A queued job record: whether job->prog was set (a Program matched). -/
structure JobRec where
  hasProg : Bool
deriving DecidableEq, Repr

/-- virNetServerDispatchNewMessage (virnetserver.c:210).  `workers` is
whether srv->workers exist, `matched` whether a Program matched, `allocOk`
the outcome of VIR_ALLOC(job), `poolOk` the outcome of
virThreadPoolSendJob.  Returns the C result, the updated reference counts
and the job handed to the pool (if any).  The function itself takes no
reference on the client: its sole caller acquires one before invoking it and
donates it to the job (see virNetServerClientDispatchRead below). -/
def virNetServerDispatchNewMessage (workers matched : Bool) (htype : MsgType)
    (allocOk poolOk unknownErrOk sendOk dispatchOk : Bool) (rc : RefCounts) :
    Int × RefCounts × Option JobRec :=
  if workers then
    if !allocOk then (-1, rc, none)
    else
      let rc1 := if matched then { rc with prog := rc.prog + 1 } else rc
      if poolOk then (0, rc1, some ⟨matched⟩)
      else
        -- VIR_FREE(job); virObjectUnref(prog) -- unref of NULL is a no-op
        let rc2 := if matched then { rc1 with prog := rc1.prog - 1 } else rc1
        (-1, rc2, none)
  else
    ((virNetServerProcessMsg matched htype unknownErrOk sendOk dispatchOk).1,
     rc, none)

/-- virNetServerHandleJob (virnetserver.c:186).  Both the success and the
error path drop the job references: virObjectUnref(job->prog) (a no-op when
no Program matched, job->prog being NULL) and virObjectUnref(job->client).
The error path additionally frees the message and closes the client, which
does not change the counts. -/
def virNetServerHandleJob (job : JobRec) (htype : MsgType)
    (unknownErrOk sendOk dispatchOk : Bool) (rc : RefCounts) : RefCounts :=
  let _processed :=
    virNetServerProcessMsg job.hasProg htype unknownErrOk sendOk dispatchOk
  let rc1 := if job.hasProg then { rc with prog := rc.prog - 1 } else rc
  { rc1 with client := rc1.client - 1 }

/-- Modelled from the spec: virNetServerClientDispatchRead, the sole caller
of the dispatch callback, lives in virnetserverclient.c, which is part of
the repository but not under src.  Per the ownership contract of the spec (a
Job takes an additional strong reference to the Connection, held for its
entire queued-plus-executing lifetime, and a failed submission releases it
before the error is reported), the caller takes a strong reference on the
client before invoking virNetServerDispatchNewMessage, donates it to the
job when the dispatcher succeeds, and releases it when the dispatcher
fails. -/
def virNetServerClientDispatchRead (workers matched : Bool) (htype : MsgType)
    (allocOk poolOk unknownErrOk sendOk dispatchOk : Bool) (rc : RefCounts) :
    Int × RefCounts × Option JobRec :=
  let rc1 := { rc with client := rc.client + 1 }
  let r := virNetServerDispatchNewMessage workers matched htype
      allocOk poolOk unknownErrOk sendOk dispatchOk rc1
  if r.1 < 0 then
    (r.1, { r.2.1 with client := r.2.1.client - 1 }, r.2.2)
  else
    r

/-! ## SASL layered writes (virnetsocket.c:1416, virNetSocketWriteSASL) -/

/-- The pending encoded chunk held in sock->saslEncoded together with its
bookkeeping: `absorbed` is the amount of plaintext that was encoded into the
chunk (the tosend of the encoding call), `encLen` is sock->saslEncodedLength
and `encOff` is sock->saslEncodedOffset. -/
structure SaslChunk where
  absorbed : Nat
  encLen : Nat
  encOff : Nat
deriving DecidableEq, Repr

/-- The outcome of the inner virNetSocketWriteWire call: an error, or a byte
count (0 meaning would-block). -/
inductive WWRes where
  | error
  | written (n : Nat)
deriving DecidableEq, Repr

/-- The byte count a wire outcome pushed onto the wire. -/
def wireAmount : WWRes → Nat
  | WWRes.error => 0
  | WWRes.written n => n

/-- The tail of virNetSocketWriteSASL after the encode step: flush some of
the encoded chunk and account for it.  `tosend` is min of the session max
buffer size and the length offered by the caller in this call. -/
def saslFlushStep (tosend : Nat) (c : SaslChunk) (w : WWRes) :
    Int × Option SaslChunk :=
  match w with
  | WWRes.error => (-1, some c)
  | WWRes.written 0 => (0, some c)
  | WWRes.written (n + 1) =>
      let off := c.encOff + (n + 1)
      if off = c.encLen then
        -- sent all encoded: clear the buffers, report the plaintext amount
        ((tosend : Int), none)
      else
        -- still pending: pretend nothing was sent so the caller retries
        (0, some ⟨c.absorbed, c.encLen, off⟩)

/-- virNetSocketWriteSASL (virnetsocket.c:1416).  `maxbuf` is
virNetSASLSessionGetMaxBufSize, `enc` gives the encoded size produced by
virNetSASLSessionEncode for a given plaintext size, `len` the length offered
by the caller, `encodeOk` the outcome of the encode call, `st` the pending
chunk state and `w` the outcome of the inner wire write. -/
def virNetSocketWriteSASL (maxbuf : Nat) (enc : Nat → Nat) (len : Nat)
    (encodeOk : Bool) (st : Option SaslChunk) (w : WWRes) :
    Int × Option SaslChunk :=
  let tosend := min maxbuf len
  match st with
  | none =>
      if !encodeOk then (-1, none)
      else saslFlushStep tosend ⟨tosend, enc tosend, 0⟩ w
  | some c => saslFlushStep tosend c w

/-- A caller retry loop: the caller offers the same buffer (same `len`)
until the write reports a nonzero result (progress or error), as the upper
layers of the transport do on a would-block result.  Returns the final
result, the final chunk state and the total number of bytes pushed onto the
wire across the run. -/
def saslRetryRun (maxbuf : Nat) (enc : Nat → Nat) (len : Nat) :
    Option SaslChunk → List WWRes → Int × Option SaslChunk × Nat
  | st, [] => (0, st, 0)
  | st, w :: ws =>
      let r := virNetSocketWriteSASL maxbuf enc len true st w
      if r.1 = 0 then
        let rest := saslRetryRun maxbuf enc len r.2 ws
        (rest.1, rest.2.1, wireAmount w + rest.2.2)
      else (r.1, r.2, wireAmount w)

/-! ## Socket exec-restart serialization (virnetsocket.c:939) -/

/-- The socket state consulted by virNetSocketPreExecRestart.  The session
fields record presence of the session objects; `sshCachedData` records
whether the SSH session holds buffered (already decrypted or not yet
flushed) data, `fdCloexec` and `errfdCloexec` the close-on-exec flags of the
descriptors. -/
structure SockSerState where
  fd : Int
  errfd : Int
  pid : Int
  isClient : Bool
  tlsSession : Bool
  saslSession : Bool
  sshSession : Bool
  sshCachedData : Bool
  fdCloexec : Bool
  errfdCloexec : Bool
deriving DecidableEq, Repr

/-- The serialized socket sub-document. -/
structure SockDoc where
  fd : Int
  errfd : Int
  pid : Int
  isClient : Bool
deriving DecidableEq, Repr

/-- virNetSocketPreExecRestart (virnetsocket.c:939) with JSON allocation
assumed to succeed; `inheritFdOk` and `inheritErrfdOk` are the outcomes of
the two virSetInherit calls.  Returns the produced document (none on
failure) and the socket state after the call. -/
def virNetSocketPreExecRestart (s : SockSerState)
    (inheritFdOk inheritErrfdOk : Bool) : Option SockDoc × SockSerState :=
  if s.saslSession then (none, s)
  else if s.tlsSession then (none, s)
  else
    let doc : SockDoc := ⟨s.fd, s.errfd, s.pid, s.isClient⟩
    if !inheritFdOk then (none, s)
    else
      let s1 := { s with fdCloexec := false }
      if s.errfd ≠ -1 then
        if !inheritErrfdOk then (none, s1)
        else (some doc, { s1 with errfdCloexec := false })
      else (some doc, s1)

/-! ## TCP listen over resolved candidates (virnetsocket.c:219) -/

/-- The outcome of processing one resolved candidate address.  `fatal`
covers every failure the loop treats as immediately fatal: socket creation,
setsockopt, a bind failure with an errno other than EADDRINUSE, getsockname,
array growth, and socket-object construction. -/
inductive TCPCand where
  | bindOk
  | bindInUse
  | fatal
deriving DecidableEq, Repr

/-- The error kinds the listen operation can end with. -/
inductive ListenErr where
  | addrInUse
  | other
deriving DecidableEq, Repr

/-- The candidate loop of virNetSocketNewListenTCP, carrying the count of
bound sockets and the addrInUse flag. -/
def listenTCPGo : List TCPCand → Nat → Bool → Except ListenErr Nat
  | [], nsocks, inUse =>
      if nsocks = 0 ∧ inUse then Except.error ListenErr.addrInUse
      else Except.ok nsocks
  | TCPCand.bindOk :: rest, nsocks, inUse => listenTCPGo rest (nsocks + 1) inUse
  | TCPCand.bindInUse :: rest, nsocks, _ => listenTCPGo rest nsocks true
  | TCPCand.fatal :: _, _, _ => Except.error ListenErr.other

/-- virNetSocketNewListenTCP (virnetsocket.c:219) after a successful address
resolution, as a function of the per-candidate outcomes.  On success it
returns the number of bound sockets handed back to the caller. -/
def virNetSocketNewListenTCP (cands : List TCPCand) : Except ListenErr Nat :=
  listenTCPGo cands 0 false

/-- The number of candidates that bind successfully. -/
def countBindOk : List TCPCand → Nat
  | [] => 0
  | TCPCand.bindOk :: rest => countBindOk rest + 1
  | _ :: rest => countBindOk rest

/-- Whether some candidate fails with address-in-use. -/
def hasInUse : List TCPCand → Bool
  | [] => false
  | TCPCand.bindInUse :: _ => true
  | _ :: rest => hasInUse rest

/-! ## Socket construction, disposal and accept (virnetsocket.c:138, 997,
1573) -/

/-- A constructed socket object, restricted to the fields these claims
touch. -/
structure WireSock where
  fd : Int
  errfd : Int
  pid : Int
  client : Bool
deriving DecidableEq, Repr

/-- Outcomes of the fallible steps inside virNetSocketNew:
virNetSocketInitialize, virSetCloseExec, virSetNonBlock, virObjectNew,
virMutexInit, the TCP_NODELAY setsockopt, and the two
virSocketAddrFormatFull calls. -/
structure NewOutcomes where
  globalsOk : Bool
  cloexecOk : Bool
  nonblockOk : Bool
  objOk : Bool
  mutexOk : Bool
  nodelayOk : Bool
  localFmtOk : Bool
  remoteFmtOk : Bool
deriving DecidableEq, Repr

/-- virNetSocketDispose (virnetsocket.c:997) restricted to its effect on the
two descriptors: VIR_FORCE_CLOSE closes a descriptor only when it is not -1.
(Watch removal, UNIX-path unlink, session unref and child reaping are beyond
the claims modelled here.)  Returns the list of descriptors closed. -/
def virNetSocketDispose (s : WireSock) : List Int :=
  (if 0 ≤ s.fd then [s.fd] else []) ++ (if 0 ≤ s.errfd then [s.errfd] else [])

/-- virNetSocketNew (virnetsocket.c:138).  `hasLocal` and `hasRemote` are
whether the address pointers are non-NULL, `isTcp` whether the local address
family is AF_INET or AF_INET6 (so the TCP_NODELAY branch runs).  Returns
the constructed object (none on failure) together with the list of
descriptors closed during the call.  On the late error path the source
zeroes sock->fd and sock->errfd to -1 before the unref, so the triggered
dispose closes nothing. -/
def virNetSocketNew (hasLocal hasRemote isClient : Bool) (fd errfd pid : Int)
    (isTcp : Bool) (o : NewOutcomes) : Option WireSock × List Int :=
  if !o.globalsOk then (none, [])
  else if !o.cloexecOk then (none, [])
  else if !o.nonblockOk then (none, [])
  else if !o.objOk then (none, [])
  else if !o.mutexOk then (none, [])  -- VIR_FREE(sock), no dispose
  else
    let sock : WireSock := ⟨fd, errfd, pid, isClient⟩
    let failed : Option WireSock × List Int :=
      (none, virNetSocketDispose { sock with fd := -1, errfd := -1 })
    if isTcp && !o.nodelayOk then failed
    else if hasLocal && !o.localFmtOk then failed
    else if hasRemote && !o.remoteFmtOk then failed
    else (some sock, [])

/-- The accept syscall outcome inside virNetSocketAccept: a transient
failure (ECONNABORTED or EAGAIN), a hard failure, or an accepted
descriptor. -/
inductive AcceptOut where
  | transientFail
  | hardFail
  | accepted (fd : Nat)
deriving DecidableEq, Repr

/-- virNetSocketAccept (virnetsocket.c:1573).  `gsOk` is the outcome of
getsockname on the accepted descriptor; the accepted socket is wrapped via
virNetSocketNew with both addresses, isClient true, errfd -1 and pid 0.
Returns the C result, the produced client socket (none when no socket was
produced) and the descriptors closed during the call. -/
def virNetSocketAccept (acc : AcceptOut) (gsOk : Bool) (isTcp : Bool)
    (o : NewOutcomes) : Int × Option WireSock × List Int :=
  match acc with
  | AcceptOut.transientFail => (0, none, [])
  | AcceptOut.hardFail => (-1, none, [])
  | AcceptOut.accepted fd =>
      if !gsOk then (-1, none, [(fd : Int)])
      else
        match virNetSocketNew true true true (fd : Int) (-1) 0 isTcp o with
        | (none, closed) => (-1, none, closed ++ [(fd : Int)])
        | (some s, closed) =>
            -- fd is set to -1 before cleanup, so the final close is a no-op
            (0, some s, closed)

/-! ## Theorems -/

/-- Claim C1, counterexample: for a one-way frame (kind VIR_NET_MESSAGE)
whose routing key matches no Program, with every sub-call succeeding,
processing sends one frame to the Connection (the cleared dummy reply), not
zero as the claim states. -/
theorem claim1_counterexample :
    (virNetServerProcessMsg false MsgType.message true true true).2 =
      [SentFrame.dummyReply] ∧
    ¬ (virNetServerProcessMsg false MsgType.message true true true).2 = [] := by
  decide

/-- Claim C1 (amended): when no Program matches, a call-kind frame produces
exactly one unknown-program error reply to the Connection; a one-way frame
is logged, its content dropped, and exactly one empty dummy reply frame (the
cleared inbound frame re-typed as a reply) is sent to the Connection to
release the frame and unblock reception, with zero unknown-program error
replies.  In both cases processing succeeds. -/
theorem claim1_unmatched_frames (t : MsgType) (uOk sOk dOk : Bool) :
    (isCallKind t = true →
      virNetServerProcessMsg false t true sOk dOk =
        (0, [SentFrame.unknownProgError])) ∧
    (isCallKind t = false →
      virNetServerProcessMsg false t uOk true dOk =
        (0, [SentFrame.dummyReply])) := by
  cases t <;> simp [virNetServerProcessMsg, isCallKind]

/-- Claim C1, witness at concrete frame kinds. -/
theorem claim1_unmatched_frames_witness :
    virNetServerProcessMsg false MsgType.call true true true =
      (0, [SentFrame.unknownProgError]) ∧
    virNetServerProcessMsg false MsgType.stream true true true =
      (0, [SentFrame.dummyReply]) :=
  ⟨(claim1_unmatched_frames MsgType.call true true true).1 (by decide),
   (claim1_unmatched_frames MsgType.stream true true true).2 (by decide)⟩

/-- Claim C2 is a code bug: virNetServerNewPostExecRestart passes the parsed
max_clients value in the max_workers argument position of virNetServerNew
(virnetserver.c:514), and the parsed max_workers value is never used, so the
round trip rebuilds the worker pool with maxWorkers equal to the original
max_clients.  Evaluation at a server with pool (2, 7, 1) and max_clients 3:
every other scalar and both counts round-trip, but the reconstructed pool
maximum is 3 instead of 7. -/
theorem claim2_roundtrip_code_bug :
    (virNetServerNewPostExecRestart (virNetServerPreExecRestart
        { workers := some ⟨2, 7, 1⟩
          nclientsMax := 3
          keepaliveInterval := 5
          keepaliveCount := 6
          keepaliveRequired := true
          mdnsGroupName := none
          services := [10]
          clients := [freshClient] })).map
      (fun s => (virThreadPoolGetMinWorkers s.workers,
                 virThreadPoolGetMaxWorkers s.workers,
                 virThreadPoolGetPriorityWorkers s.workers,
                 s.nclientsMax, s.keepaliveInterval, s.keepaliveCount,
                 s.keepaliveRequired, s.services.length, s.clients.length))
      = some (2, 3, 1, 3, 5, 6, true, 1, 1) := by
  rfl

/-- Claim C3: with the live-Connection count at or above the ceiling,
virNetServerAddClient fails with the capacity error and changes neither the
server nor the client (no entry appended, nothing installed), and
virNetServerDispatchNewClient then closes the new transport and drops its
reference, leaving the transient client closed, uninitialized, with no
dispatcher and no keepalive and a zero reference count. -/
theorem claim3_capacity_reject (srv : Server) (c : Client) (initOk allocOk : Bool)
    (h : srv.nclientsMax ≤ srv.clients.length) :
    virNetServerAddClient srv c initOk allocOk =
      (AddClientRes.errCapacity, srv, c) ∧
    virNetServerDispatchNewClient srv true initOk allocOk =
      (-1, srv, some { freshClient with closed := true, refs := 0 }) := by
  have hc : srv.clients.length ≥ srv.nclientsMax := h
  have h1 : ∀ c0, virNetServerAddClient srv c0 initOk allocOk =
      (AddClientRes.errCapacity, srv, c0) := by
    intro c0
    unfold virNetServerAddClient
    rw [if_pos hc]
  refine ⟨h1 c, ?_⟩
  unfold virNetServerDispatchNewClient
  rw [h1 freshClient]
  rfl

/-- Claim C3, witness at a server whose ceiling is zero. -/
theorem claim3_capacity_reject_witness :
    (let srv : Server :=
      { workers := none, nclientsMax := 0, keepaliveInterval := 0,
        keepaliveCount := 0, keepaliveRequired := false, mdnsGroupName := none,
        services := [], clients := [] }
     virNetServerAddClient srv freshClient true true =
       (AddClientRes.errCapacity, srv, freshClient) ∧
     virNetServerDispatchNewClient srv true true true =
       (-1, srv, some { freshClient with closed := true, refs := 0 })) :=
  claim3_capacity_reject _ freshClient true true (Nat.le_refl 0)

/-- Claim C4: with a worker pool present, a successful dispatch leaves the
queued job holding one additional strong reference to the Connection and,
when a Program matched, one to the Program; those references are held until
virNetServerHandleJob completes the job, which releases them and restores
exactly the pre-dispatch counts; and when pool submission (or job
allocation) fails, both references are released before the error is
reported, so the counts are already restored when -1 surfaces. -/
theorem claim4_job_references (matched : Bool) (htype : MsgType)
    (poolOk uOk sOk dOk : Bool) (rc : RefCounts) :
    virNetServerClientDispatchRead true matched htype true true uOk sOk dOk rc =
      (0, { client := rc.client + 1,
            prog := if matched then rc.prog + 1 else rc.prog },
       some ⟨matched⟩) ∧
    virNetServerHandleJob ⟨matched⟩ htype uOk sOk dOk
      { client := rc.client + 1,
        prog := if matched then rc.prog + 1 else rc.prog } = rc ∧
    virNetServerClientDispatchRead true matched htype true false uOk sOk dOk rc =
      (-1, rc, none) ∧
    virNetServerClientDispatchRead true matched htype false poolOk uOk sOk dOk rc =
      (-1, rc, none) := by
  obtain ⟨cl, pr⟩ := rc
  cases matched <;>
    simp [virNetServerClientDispatchRead, virNetServerDispatchNewMessage,
          virNetServerHandleJob]

/-- Helper: a retry run that starts with a pending chunk whose bookkeeping
matches the offered buffer (absorbed equals min of maxbuf and len, encoded
length equals the encoding of that amount) and ends with a positive result
reports exactly the absorbed plaintext amount, leaves no pending chunk, and
has pushed exactly the remaining encoded bytes onto the wire. -/
theorem saslRunPending (maxbuf len : Nat) (enc : Nat → Nat)
    (hpos : 0 < min maxbuf len) :
    ∀ (ws : List WWRes) (c : SaslChunk),
      c.absorbed = min maxbuf len → c.encLen = enc (min maxbuf len) →
      0 < (saslRetryRun maxbuf enc len (some c) ws).1 →
      (saslRetryRun maxbuf enc len (some c) ws).1 = ((min maxbuf len : Nat) : Int)
      ∧ (saslRetryRun maxbuf enc len (some c) ws).2.1 = none
      ∧ (saslRetryRun maxbuf enc len (some c) ws).2.2 + c.encOff
          = enc (min maxbuf len) := by
  intro ws
  induction ws with
  | nil =>
      intro c h1 h2 hr
      simp [saslRetryRun] at hr
  | cons w ws ih =>
      intro c h1 h2 hr
      match w with
      | WWRes.error =>
          have hstep : virNetSocketWriteSASL maxbuf enc len true (some c)
              WWRes.error = (-1, some c) := by
            simp [virNetSocketWriteSASL, saslFlushStep]
          have hrun : saslRetryRun maxbuf enc len (some c) (WWRes.error :: ws) =
              (-1, some c, 0) := by
            simp only [saslRetryRun, hstep, wireAmount]
            rw [if_neg (by decide)]
          rw [hrun] at hr
          norm_num at hr
      | WWRes.written 0 =>
          have hstep : virNetSocketWriteSASL maxbuf enc len true (some c)
              (WWRes.written 0) = (0, some c) := by
            simp [virNetSocketWriteSASL, saslFlushStep]
          have hrun : saslRetryRun maxbuf enc len (some c)
              (WWRes.written 0 :: ws) =
              ((saslRetryRun maxbuf enc len (some c) ws).1,
               (saslRetryRun maxbuf enc len (some c) ws).2.1,
               (saslRetryRun maxbuf enc len (some c) ws).2.2) := by
            simp [saslRetryRun, hstep, wireAmount]
          rw [hrun] at hr ⊢
          obtain ⟨e1, e2, e3⟩ := ih c h1 h2 hr
          exact ⟨e1, e2, e3⟩
      | WWRes.written (n + 1) =>
          by_cases hoff : c.encOff + (n + 1) = c.encLen
          · have hstep : virNetSocketWriteSASL maxbuf enc len true (some c)
                (WWRes.written (n + 1)) =
                (((min maxbuf len : Nat) : Int), none) := by
              simp only [virNetSocketWriteSASL, saslFlushStep]
              rw [if_pos hoff]
            have hne : (((min maxbuf len : Nat) : Int)) ≠ 0 := by
              exact_mod_cast Nat.pos_iff_ne_zero.mp hpos
            have hrun : saslRetryRun maxbuf enc len (some c)
                (WWRes.written (n + 1) :: ws) =
                (((min maxbuf len : Nat) : Int), none, n + 1) := by
              simp only [saslRetryRun, hstep, wireAmount]
              rw [if_neg hne]
            rw [hrun]
            refine ⟨rfl, rfl, ?_⟩
            show (n + 1) + c.encOff = enc (min maxbuf len)
            omega
          · have hstep : virNetSocketWriteSASL maxbuf enc len true (some c)
                (WWRes.written (n + 1)) =
                (0, some ⟨c.absorbed, c.encLen, c.encOff + (n + 1)⟩) := by
              simp only [virNetSocketWriteSASL, saslFlushStep]
              rw [if_neg hoff]
            have hrun : saslRetryRun maxbuf enc len (some c)
                (WWRes.written (n + 1) :: ws) =
                ((saslRetryRun maxbuf enc len
                    (some ⟨c.absorbed, c.encLen, c.encOff + (n + 1)⟩) ws).1,
                 (saslRetryRun maxbuf enc len
                    (some ⟨c.absorbed, c.encLen, c.encOff + (n + 1)⟩) ws).2.1,
                 (n + 1) + (saslRetryRun maxbuf enc len
                    (some ⟨c.absorbed, c.encLen, c.encOff + (n + 1)⟩) ws).2.2) := by
              simp [saslRetryRun, hstep, wireAmount]
            rw [hrun] at hr ⊢
            obtain ⟨e1, e2, e3⟩ := ih ⟨c.absorbed, c.encLen, c.encOff + (n + 1)⟩
              h1 h2 hr
            refine ⟨e1, e2, ?_⟩
            have e4 : (saslRetryRun maxbuf enc len
                (some ⟨c.absorbed, c.encLen, c.encOff + (n + 1)⟩) ws).2.2
                + (c.encOff + (n + 1)) = enc (min maxbuf len) := e3
            show (n + 1) + (saslRetryRun maxbuf enc len
                (some ⟨c.absorbed, c.encLen, c.encOff + (n + 1)⟩) ws).2.2
                + c.encOff = enc (min maxbuf len)
            omega

/-- Claim C5: a SASL-layer write never encodes new plaintext while an
encoded chunk is pending (the pending chunk bookkeeping is preserved up to
its flush offset); a partial flush reports 0 plaintext bytes and keeps the
chunk; once the pending chunk is fully flushed the write reports exactly the
plaintext amount absorbed into that chunk (for a caller retrying with the
same buffer); and a whole retry run from a clean state that ends with a
positive report has absorbed exactly min maxbuf len plaintext bytes, encoded
them exactly once, and pushed exactly their encoding onto the wire. -/
theorem claim5_sasl_write :
    (∀ (maxbuf len : Nat) (enc : Nat → Nat) (eOk : Bool) (c : SaslChunk)
       (w : WWRes),
       (virNetSocketWriteSASL maxbuf enc len eOk (some c) w).2 = none ∨
       ∃ off, (virNetSocketWriteSASL maxbuf enc len eOk (some c) w).2 =
         some ⟨c.absorbed, c.encLen, off⟩) ∧
    (∀ (maxbuf len : Nat) (enc : Nat → Nat) (eOk : Bool) (c : SaslChunk)
       (m : Nat), 0 < m → c.encOff + m ≠ c.encLen →
       virNetSocketWriteSASL maxbuf enc len eOk (some c) (WWRes.written m) =
         (0, some ⟨c.absorbed, c.encLen, c.encOff + m⟩)) ∧
    (∀ (maxbuf len : Nat) (enc : Nat → Nat) (eOk : Bool) (c : SaslChunk)
       (m : Nat), 0 < m → c.encOff + m = c.encLen →
       min maxbuf len = c.absorbed →
       virNetSocketWriteSASL maxbuf enc len eOk (some c) (WWRes.written m) =
         ((c.absorbed : Int), none)) ∧
    (∀ (maxbuf len : Nat) (enc : Nat → Nat) (ws : List WWRes),
       0 < min maxbuf len →
       0 < (saslRetryRun maxbuf enc len none ws).1 →
       (saslRetryRun maxbuf enc len none ws).1 = ((min maxbuf len : Nat) : Int)
       ∧ (saslRetryRun maxbuf enc len none ws).2.1 = none
       ∧ (saslRetryRun maxbuf enc len none ws).2.2 = enc (min maxbuf len)) := by
  refine ⟨?_, ?_, ?_, ?_⟩
  · intro maxbuf len enc eOk c w
    match w with
    | WWRes.error =>
        right
        exact ⟨c.encOff, by simp [virNetSocketWriteSASL, saslFlushStep]⟩
    | WWRes.written 0 =>
        right
        exact ⟨c.encOff, by simp [virNetSocketWriteSASL, saslFlushStep]⟩
    | WWRes.written (n + 1) =>
        by_cases hoff : c.encOff + (n + 1) = c.encLen
        · left
          simp only [virNetSocketWriteSASL, saslFlushStep]
          rw [if_pos hoff]
        · right
          refine ⟨c.encOff + (n + 1), ?_⟩
          simp only [virNetSocketWriteSASL, saslFlushStep]
          rw [if_neg hoff]
  · intro maxbuf len enc eOk c m hm hoff
    match m, hm with
    | n + 1, _ =>
        simp only [virNetSocketWriteSASL, saslFlushStep]
        rw [if_neg hoff]
  · intro maxbuf len enc eOk c m hm hoff habs
    match m, hm with
    | n + 1, _ =>
        simp only [virNetSocketWriteSASL, saslFlushStep]
        rw [if_pos hoff, habs]
  · intro maxbuf len enc ws hpos hr
    match ws with
    | [] => simp [saslRetryRun] at hr
    | w :: ws =>
        have hfresh : virNetSocketWriteSASL maxbuf enc len true none w =
            saslFlushStep (min maxbuf len)
              ⟨min maxbuf len, enc (min maxbuf len), 0⟩ w := by
          simp [virNetSocketWriteSASL]
        match w with
        | WWRes.error =>
            have hrun : saslRetryRun maxbuf enc len none (WWRes.error :: ws) =
                (-1, some ⟨min maxbuf len, enc (min maxbuf len), 0⟩, 0) := by
              simp [saslRetryRun, hfresh, saslFlushStep, wireAmount]
            rw [hrun] at hr
            norm_num at hr
        | WWRes.written 0 =>
            have hrun : saslRetryRun maxbuf enc len none
                (WWRes.written 0 :: ws) =
                ((saslRetryRun maxbuf enc len
                    (some ⟨min maxbuf len, enc (min maxbuf len), 0⟩) ws).1,
                 (saslRetryRun maxbuf enc len
                    (some ⟨min maxbuf len, enc (min maxbuf len), 0⟩) ws).2.1,
                 (saslRetryRun maxbuf enc len
                    (some ⟨min maxbuf len, enc (min maxbuf len), 0⟩) ws).2.2) := by
              simp [saslRetryRun, hfresh, saslFlushStep, wireAmount]
            rw [hrun] at hr ⊢
            obtain ⟨e1, e2, e3⟩ := saslRunPending maxbuf len enc hpos ws
              ⟨min maxbuf len, enc (min maxbuf len), 0⟩ rfl rfl hr
            refine ⟨e1, e2, ?_⟩
            have e4 : (saslRetryRun maxbuf enc len
                (some ⟨min maxbuf len, enc (min maxbuf len), 0⟩) ws).2.2 + 0
                = enc (min maxbuf len) := e3
            show (saslRetryRun maxbuf enc len
                (some ⟨min maxbuf len, enc (min maxbuf len), 0⟩) ws).2.2
                = enc (min maxbuf len)
            omega
        | WWRes.written (n + 1) =>
            by_cases hoff : (n + 1) = enc (min maxbuf len)
            · have hstep : virNetSocketWriteSASL maxbuf enc len true none
                  (WWRes.written (n + 1)) =
                  (((min maxbuf len : Nat) : Int), none) := by
                rw [hfresh]
                simp only [saslFlushStep]
                rw [if_pos (by simpa using hoff)]
              have hne : (((min maxbuf len : Nat) : Int)) ≠ 0 := by
                exact_mod_cast Nat.pos_iff_ne_zero.mp hpos
              have hrun : saslRetryRun maxbuf enc len none
                  (WWRes.written (n + 1) :: ws) =
                  (((min maxbuf len : Nat) : Int), none, n + 1) := by
                simp only [saslRetryRun, hstep, wireAmount]
                rw [if_neg hne]
              rw [hrun]
              exact ⟨rfl, rfl, by show n + 1 = enc (min maxbuf len); omega⟩
            · have hstep : virNetSocketWriteSASL maxbuf enc len true none
                  (WWRes.written (n + 1)) =
                  (0, some ⟨min maxbuf len, enc (min maxbuf len), n + 1⟩) := by
                rw [hfresh]
                simp only [saslFlushStep]
                rw [if_neg (by simpa using hoff)]
                simp
              have hrun : saslRetryRun maxbuf enc len none
                  (WWRes.written (n + 1) :: ws) =
                  ((saslRetryRun maxbuf enc len
                      (some ⟨min maxbuf len, enc (min maxbuf len), n + 1⟩) ws).1,
                   (saslRetryRun maxbuf enc len
                      (some ⟨min maxbuf len, enc (min maxbuf len), n + 1⟩) ws).2.1,
                   (n + 1) + (saslRetryRun maxbuf enc len
                      (some ⟨min maxbuf len, enc (min maxbuf len), n + 1⟩) ws).2.2) := by
                simp [saslRetryRun, hstep, wireAmount]
              rw [hrun] at hr ⊢
              obtain ⟨e1, e2, e3⟩ := saslRunPending maxbuf len enc hpos ws
                ⟨min maxbuf len, enc (min maxbuf len), n + 1⟩ rfl rfl hr
              refine ⟨e1, e2, ?_⟩
              have e4 : (saslRetryRun maxbuf enc len
                  (some ⟨min maxbuf len, enc (min maxbuf len), n + 1⟩) ws).2.2
                  + (n + 1) = enc (min maxbuf len) := e3
              show (n + 1) + (saslRetryRun maxbuf enc len
                  (some ⟨min maxbuf len, enc (min maxbuf len), n + 1⟩) ws).2.2
                  = enc (min maxbuf len)
              omega

/-- Claim C5, witness: maxbuf 4, a buffer of 3 plaintext bytes encoding to 5
bytes, flushed across two wire writes of 2 and 3 bytes. -/
theorem claim5_sasl_write_witness :
    ((virNetSocketWriteSASL 4 (fun n => n + 2) 3 true (some ⟨3, 5, 1⟩)
        (WWRes.written 1)).2 = none ∨
      ∃ off, (virNetSocketWriteSASL 4 (fun n => n + 2) 3 true (some ⟨3, 5, 1⟩)
        (WWRes.written 1)).2 = some ⟨3, 5, off⟩) ∧
    virNetSocketWriteSASL 4 (fun n => n + 2) 3 true (some ⟨3, 5, 0⟩)
        (WWRes.written 2) = (0, some ⟨3, 5, 2⟩) ∧
    virNetSocketWriteSASL 4 (fun n => n + 2) 3 true (some ⟨3, 5, 2⟩)
        (WWRes.written 3) = ((3 : Int), none) ∧
    ((saslRetryRun 4 (fun n => n + 2) 3 none
        [WWRes.written 2, WWRes.written 3]).1 = (3 : Int)
     ∧ (saslRetryRun 4 (fun n => n + 2) 3 none
        [WWRes.written 2, WWRes.written 3]).2.1 = none
     ∧ (saslRetryRun 4 (fun n => n + 2) 3 none
        [WWRes.written 2, WWRes.written 3]).2.2 = 5) :=
  ⟨claim5_sasl_write.1 4 3 (fun n => n + 2) true ⟨3, 5, 1⟩ (WWRes.written 1),
   claim5_sasl_write.2.1 4 3 (fun n => n + 2) true ⟨3, 5, 0⟩ 2
     (by decide) (by decide),
   claim5_sasl_write.2.2.1 4 3 (fun n => n + 2) true ⟨3, 5, 2⟩ 3
     (by decide) (by decide) (by decide),
   claim5_sasl_write.2.2.2 4 3 (fun n => n + 2)
     [WWRes.written 2, WWRes.written 3] (by decide) (by decide)⟩

/-- Claim C6: on both the read and the write wire paths, EAGAIN yields a
zero-length success (never an error), EINTR is retried transparently, and a
zero-byte read with no OS error is escalated to an explicit unexpected-EOF
failure, annotated with captured error-stream text exactly when an
error-stream descriptor is present and produced data. -/
theorem claim6_wire_errors :
    (∀ (e t : Bool) (rest : List WireOut),
       virNetSocketReadWire e t (WireOut.eintr :: rest) =
         virNetSocketReadWire e t rest) ∧
    (∀ (e t : Bool) (rest : List WireOut),
       virNetSocketReadWire e t (WireOut.eagain :: rest) = some (RWRes.ok 0)) ∧
    (∀ (e t : Bool) (rest : List WireOut),
       virNetSocketReadWire e t (WireOut.bytes 0 :: rest) =
         some (RWRes.errEof (e && t))) ∧
    (∀ (rest : List WireOut),
       virNetSocketWriteWire (WireOut.eintr :: rest) =
         virNetSocketWriteWire rest) ∧
    (∀ (rest : List WireOut),
       virNetSocketWriteWire (WireOut.eagain :: rest) = some (RWRes.ok 0)) :=
  ⟨fun _ _ _ => rfl, fun _ _ _ => rfl, fun _ _ _ => rfl,
   fun _ => rfl, fun _ => rfl⟩

/-- Claim C7, counterexample: a socket whose SSH session is present and
holds buffered data, with no TLS and no SASL session, serializes
successfully, against the claim that any buffered cryptographic state in the
SSH session must make serialization fail. -/
theorem claim7_counterexample :
    (virNetSocketPreExecRestart
      { fd := 5, errfd := -1, pid := 0, isClient := false,
        tlsSession := false, saslSession := false,
        sshSession := true, sshCachedData := true,
        fdCloexec := true, errfdCloexec := true } true true).1 =
      some ⟨5, -1, 0, false⟩ := by
  decide

/-- Claim C7 (amended): socket exec-restart serialization fails whenever an
active TLS or SASL session is present, leaving the state untouched; the SSH
session is not consulted, so a socket whose SSH session holds buffered state
still serializes.  On success the produced sub-document carries exactly fd,
errfd, pid and isClient, close-on-exec is cleared on fd, and on errfd when
errfd is present. -/
theorem claim7_socket_serialize (s : SockSerState) (o1 o2 : Bool) :
    (s.saslSession = true →
       virNetSocketPreExecRestart s o1 o2 = (none, s)) ∧
    (s.tlsSession = true →
       virNetSocketPreExecRestart s o1 o2 = (none, s)) ∧
    (∀ d, (virNetSocketPreExecRestart s o1 o2).1 = some d →
       d = ⟨s.fd, s.errfd, s.pid, s.isClient⟩ ∧
       (virNetSocketPreExecRestart s o1 o2).2.fdCloexec = false ∧
       (s.errfd ≠ -1 →
         (virNetSocketPreExecRestart s o1 o2).2.errfdCloexec = false)) ∧
    (s.saslSession = false → s.tlsSession = false → o1 = true →
       (s.errfd = -1 ∨ o2 = true) →
       (virNetSocketPreExecRestart s o1 o2).1 =
         some ⟨s.fd, s.errfd, s.pid, s.isClient⟩) := by
  by_cases hsasl : s.saslSession
  · refine ⟨?_, ?_, ?_, ?_⟩
    · intro _; simp [virNetSocketPreExecRestart, hsasl]
    · intro _; simp [virNetSocketPreExecRestart, hsasl]
    · intro d hd; rw [virNetSocketPreExecRestart] at hd; simp [hsasl] at hd
    · intro h; simp [hsasl] at h
  · by_cases htls : s.tlsSession
    · refine ⟨?_, ?_, ?_, ?_⟩
      · intro h; simp [hsasl] at h
      · intro _; simp [virNetSocketPreExecRestart, hsasl, htls]
      · intro d hd; rw [virNetSocketPreExecRestart] at hd
        simp [hsasl, htls] at hd
      · intro _ h; simp [htls] at h
    · refine ⟨?_, ?_, ?_, ?_⟩
      · intro h; simp [hsasl] at h
      · intro h; simp [htls] at h
      · intro d hd
        rw [virNetSocketPreExecRestart] at hd
        by_cases ho1 : o1
        · by_cases herr : s.errfd = -1
          · simp [hsasl, htls, ho1, herr] at hd
            refine ⟨?_, ?_, ?_⟩
            · rw [herr]; exact hd.symm
            · simp [virNetSocketPreExecRestart, hsasl, htls, ho1, herr]
            · intro hc; exact absurd herr hc
          · by_cases ho2 : o2
            · simp [hsasl, htls, ho1, herr, ho2] at hd
              refine ⟨hd.symm, ?_, ?_⟩
              · simp [virNetSocketPreExecRestart, hsasl, htls, ho1, herr, ho2]
              · intro _
                simp [virNetSocketPreExecRestart, hsasl, htls, ho1, herr, ho2]
            · simp [hsasl, htls, ho1, herr, ho2] at hd
        · simp [hsasl, htls, ho1] at hd
      · intro _ _ ho1 hor
        rcases hor with herr | ho2
        · simp [virNetSocketPreExecRestart, hsasl, htls, ho1, herr]
        · by_cases herr : s.errfd = -1
          · simp [virNetSocketPreExecRestart, hsasl, htls, ho1, herr]
          · simp [virNetSocketPreExecRestart, hsasl, htls, ho1, herr, ho2]

/-- Claim C7, witness: a SASL-active socket fails to serialize; a plain
socket with fd 7 and errfd 3 serializes to exactly its four fields. -/
theorem claim7_socket_serialize_witness :
    virNetSocketPreExecRestart
      { fd := 7, errfd := 3, pid := 9, isClient := true,
        tlsSession := false, saslSession := true,
        sshSession := false, sshCachedData := false,
        fdCloexec := true, errfdCloexec := true } true true =
      (none,
       { fd := 7, errfd := 3, pid := 9, isClient := true,
         tlsSession := false, saslSession := true,
         sshSession := false, sshCachedData := false,
         fdCloexec := true, errfdCloexec := true }) ∧
    (virNetSocketPreExecRestart
      { fd := 7, errfd := 3, pid := 9, isClient := true,
        tlsSession := false, saslSession := false,
        sshSession := false, sshCachedData := false,
        fdCloexec := true, errfdCloexec := true } true true).1 =
      some ⟨7, 3, 9, true⟩ :=
  ⟨(claim7_socket_serialize _ true true).1 rfl,
   (claim7_socket_serialize _ true true).2.2.2 rfl rfl rfl (Or.inr rfl)⟩

/-- Helper: without fatal candidate failures, the TCP listen loop ends with
the accumulated socket count, failing with the address-in-use kind exactly
when that count is zero and some candidate (or the incoming flag) was in
use. -/
theorem listenTCPGo_noFatal (l : List TCPCand) (hno : TCPCand.fatal ∉ l) :
    ∀ (n : Nat) (u : Bool),
      listenTCPGo l n u =
        if n + countBindOk l = 0 ∧ (u = true ∨ hasInUse l = true)
        then Except.error ListenErr.addrInUse
        else Except.ok (n + countBindOk l) := by
  induction l with
  | nil =>
      intro n u
      simp [listenTCPGo, countBindOk, hasInUse]
  | cons c l ih =>
      have hno' : TCPCand.fatal ∉ l := fun h => hno (List.mem_cons_of_mem _ h)
      intro n u
      match c with
      | TCPCand.bindOk =>
          have h1 : listenTCPGo (TCPCand.bindOk :: l) n u =
              listenTCPGo l (n + 1) u := rfl
          rw [h1, ih hno' (n + 1) u,
              show countBindOk (TCPCand.bindOk :: l) = countBindOk l + 1
                from rfl,
              show hasInUse (TCPCand.bindOk :: l) = hasInUse l from rfl,
              show n + 1 + countBindOk l = n + (countBindOk l + 1) by omega]
      | TCPCand.bindInUse =>
          have h1 : listenTCPGo (TCPCand.bindInUse :: l) n u =
              listenTCPGo l n true := rfl
          rw [h1, ih hno' n true,
              show countBindOk (TCPCand.bindInUse :: l) = countBindOk l
                from rfl,
              show hasInUse (TCPCand.bindInUse :: l) = true from rfl]
          by_cases hz : n + countBindOk l = 0
          · simp [hz]
          · simp [hz]
      | TCPCand.fatal =>
          exact absurd (List.mem_cons_self _ _) hno

/-- Helper: a fatal candidate failure aborts the TCP listen loop with the
generic error kind, whatever follows it. -/
theorem listenTCPGo_fatal (l2 : List TCPCand) :
    ∀ (l1 : List TCPCand), TCPCand.fatal ∉ l1 → ∀ (n : Nat) (u : Bool),
      listenTCPGo (l1 ++ TCPCand.fatal :: l2) n u =
        Except.error ListenErr.other := by
  intro l1
  induction l1 with
  | nil => intro _ n u; rfl
  | cons c l1 ih =>
      intro hno n u
      have hno' : TCPCand.fatal ∉ l1 := fun h => hno (List.mem_cons_of_mem _ h)
      match c with
      | TCPCand.bindOk => exact ih hno' (n + 1) u
      | TCPCand.bindInUse => exact ih hno' n true
      | TCPCand.fatal => exact absurd (List.mem_cons_self _ _) hno

/-- Helper: a successfully binding candidate makes the bound count
positive. -/
theorem countBindOk_pos : ∀ (l : List TCPCand), TCPCand.bindOk ∈ l →
    0 < countBindOk l
  | TCPCand.bindOk :: _, _ => Nat.succ_pos _
  | TCPCand.bindInUse :: l, h => by
      have h2 : TCPCand.bindOk ∈ l := by
        rcases List.mem_cons.mp h with h1 | h1
        · exact absurd h1 (by decide)
        · exact h1
      exact countBindOk_pos l h2
  | TCPCand.fatal :: l, h => by
      have h2 : TCPCand.bindOk ∈ l := by
        rcases List.mem_cons.mp h with h1 | h1
        · exact absurd h1 (by decide)
        · exact h1
      exact countBindOk_pos l h2

/-- Claim C8 (amended): with no fatal candidate failure, an address-in-use
failure on some candidate is not fatal when at least one candidate binds,
and the operation succeeds with all bound sockets; if every candidate fails
with address-in-use, the operation fails with the address-in-use error kind;
zero bound sockets with no in-use failure is possible only for an empty
candidate list, and the operation then returns success with zero sockets
(not an error); any fatal candidate failure aborts immediately with the
generic error kind. -/
theorem claim8_listen_tcp :
    (∀ l, TCPCand.fatal ∉ l → TCPCand.bindOk ∈ l →
       virNetSocketNewListenTCP l = Except.ok (countBindOk l) ∧
       0 < countBindOk l) ∧
    (∀ l, l ≠ [] → (∀ c ∈ l, c = TCPCand.bindInUse) →
       virNetSocketNewListenTCP l = Except.error ListenErr.addrInUse) ∧
    (∀ l, TCPCand.fatal ∉ l → TCPCand.bindInUse ∉ l → TCPCand.bindOk ∉ l →
       l = [] ∧ virNetSocketNewListenTCP l = Except.ok 0) ∧
    (∀ l1 l2, TCPCand.fatal ∉ l1 →
       virNetSocketNewListenTCP (l1 ++ TCPCand.fatal :: l2) =
         Except.error ListenErr.other) := by
  refine ⟨?_, ?_, ?_, ?_⟩
  · intro l hno hok
    have hpos := countBindOk_pos l hok
    have h1 := listenTCPGo_noFatal l hno 0 false
    rw [virNetSocketNewListenTCP, h1, if_neg (by rintro ⟨h1, h2⟩; omega)]
    exact ⟨by rw [Nat.zero_add], hpos⟩
  · intro l hne hall
    have hno : TCPCand.fatal ∉ l := fun hm => by
      have := hall _ hm; exact absurd this (by decide)
    have hc0 : countBindOk l = 0 := by
      clear hne hno
      induction l with
      | nil => rfl
      | cons c l ih =>
          have hc := hall c (List.mem_cons_self _ _)
          subst hc
          show countBindOk l = 0
          exact ih (fun c hc => hall c (List.mem_cons_of_mem _ hc))
    have hin : hasInUse l = true := by
      match l, hne with
      | c :: l, _ =>
          have hc := hall c (List.mem_cons_self _ _)
          subst hc
          rfl
    have h1 := listenTCPGo_noFatal l hno 0 false
    rw [virNetSocketNewListenTCP, h1, if_pos ⟨by omega, Or.inr hin⟩]
  · intro l hnf hni hno
    have hl : l = [] := by
      match l with
      | [] => rfl
      | c :: l =>
          match c with
          | TCPCand.bindOk => exact absurd (List.mem_cons_self _ _) hno
          | TCPCand.bindInUse => exact absurd (List.mem_cons_self _ _) hni
          | TCPCand.fatal => exact absurd (List.mem_cons_self _ _) hnf
    subst hl
    exact ⟨rfl, rfl⟩
  · intro l1 l2 hno
    exact listenTCPGo_fatal l2 l1 hno 0 false

/-- Claim C8, counterexample: an empty candidate list ends with zero bound
sockets and no in-use failure, yet the operation returns success with zero
sockets instead of failing with a distinct error kind as the claim
states. -/
theorem claim8_counterexample :
    virNetSocketNewListenTCP [] = Except.ok 0 ∧
    ¬ ∃ e, virNetSocketNewListenTCP [] = Except.error e := by
  refine ⟨rfl, ?_⟩
  rintro ⟨e, he⟩
  rw [show virNetSocketNewListenTCP [] = Except.ok 0 from rfl] at he
  cases he

/-- Claim C8, witness at concrete candidate lists: one in-use plus one
successful bind succeeds with one socket; a single all-in-use list fails
with the address-in-use kind; the empty list is the only zero-socket
no-in-use case; a fatal failure after a successful bind aborts with the
generic kind. -/
theorem claim8_listen_tcp_witness :
    (virNetSocketNewListenTCP [TCPCand.bindInUse, TCPCand.bindOk] =
       Except.ok (countBindOk [TCPCand.bindInUse, TCPCand.bindOk]) ∧
     0 < countBindOk [TCPCand.bindInUse, TCPCand.bindOk]) ∧
    virNetSocketNewListenTCP [TCPCand.bindInUse] =
      Except.error ListenErr.addrInUse ∧
    (([] : List TCPCand) = [] ∧
     virNetSocketNewListenTCP [] = Except.ok 0) ∧
    virNetSocketNewListenTCP ([TCPCand.bindOk] ++ TCPCand.fatal :: []) =
      Except.error ListenErr.other :=
  ⟨claim8_listen_tcp.1 [TCPCand.bindInUse, TCPCand.bindOk]
     (by decide) (by decide),
   claim8_listen_tcp.2.1 [TCPCand.bindInUse] (by decide) (by decide),
   claim8_listen_tcp.2.2.1 [] (by decide) (by decide) (by decide),
   claim8_listen_tcp.2.2.2 [TCPCand.bindOk] [] (by decide)⟩

/-- Helper: the full behavior of the embedded virNetSocketNew on descriptors
and the constructed object. -/
theorem virNetSocketNew_spec (hasL hasR isC : Bool) (fd errfd pid : Int)
    (isTcp : Bool) (o : NewOutcomes) :
    (virNetSocketNew hasL hasR isC fd errfd pid isTcp o).2 = [] ∧
    (∀ s, (virNetSocketNew hasL hasR isC fd errfd pid isTcp o).1 = some s →
      s = ⟨fd, errfd, pid, isC⟩) := by
  obtain ⟨g, ce, nb, ob, mu, nd, lf, rf⟩ := o
  cases g <;> cases ce <;> cases nb <;> cases ob <;> cases mu <;>
    simp [virNetSocketNew, virNetSocketDispose] <;>
    cases isTcp <;> cases nd <;> cases hasL <;> cases lf <;>
    cases hasR <;> cases rf <;>
    simp_all [virNetSocketNew, virNetSocketDispose]

/-- Claim C9: on every failure path of the socket constructor neither the
primary descriptor nor the error descriptor is closed (the caller keeps
ownership); on success the returned object carries both descriptors, nothing
was closed during construction, and disposal of the object closes each
descriptor that is a real descriptor. -/
theorem claim9_fd_ownership (hasL hasR isC : Bool) (fd errfd pid : Int)
    (isTcp : Bool) (o : NewOutcomes) :
    ((virNetSocketNew hasL hasR isC fd errfd pid isTcp o).1 = none →
       (virNetSocketNew hasL hasR isC fd errfd pid isTcp o).2 = []) ∧
    (∀ s, (virNetSocketNew hasL hasR isC fd errfd pid isTcp o).1 = some s →
       s.fd = fd ∧ s.errfd = errfd ∧
       (virNetSocketNew hasL hasR isC fd errfd pid isTcp o).2 = [] ∧
       (0 ≤ fd → fd ∈ virNetSocketDispose s) ∧
       (0 ≤ errfd → errfd ∈ virNetSocketDispose s)) := by
  obtain ⟨hcl, hsp⟩ := virNetSocketNew_spec hasL hasR isC fd errfd pid isTcp o
  refine ⟨fun _ => hcl, ?_⟩
  intro s hs
  have hseq := hsp s hs
  subst hseq
  refine ⟨rfl, rfl, hcl, ?_, ?_⟩
  · intro hfd
    simp [virNetSocketDispose, hfd]
  · intro herrfd
    simp [virNetSocketDispose, herrfd]

/-- Claim C9, witness: an early constructor failure closes nothing with fd 4
and errfd 6 pending; the successful construction takes ownership and its
disposal closes both. -/
theorem claim9_fd_ownership_witness :
    (virNetSocketNew true true true 4 6 0 false
        { globalsOk := false, cloexecOk := true, nonblockOk := true,
          objOk := true, mutexOk := true, nodelayOk := true,
          localFmtOk := true, remoteFmtOk := true }).2 = [] ∧
    ((4 : Int) ∈ virNetSocketDispose ⟨4, 6, 0, true⟩ ∧
     (6 : Int) ∈ virNetSocketDispose ⟨4, 6, 0, true⟩ ∧
     (virNetSocketNew true true true 4 6 0 false
        { globalsOk := true, cloexecOk := true, nonblockOk := true,
          objOk := true, mutexOk := true, nodelayOk := true,
          localFmtOk := true, remoteFmtOk := true }).2 = []) :=
  ⟨(claim9_fd_ownership true true true 4 6 0 false
      { globalsOk := false, cloexecOk := true, nonblockOk := true,
        objOk := true, mutexOk := true, nodelayOk := true,
        localFmtOk := true, remoteFmtOk := true }).1 rfl,
   ((claim9_fd_ownership true true true 4 6 0 false
      { globalsOk := true, cloexecOk := true, nonblockOk := true,
        objOk := true, mutexOk := true, nodelayOk := true,
        localFmtOk := true, remoteFmtOk := true }).2 ⟨4, 6, 0, true⟩ rfl).2.2.2.1
     (by decide),
   ((claim9_fd_ownership true true true 4 6 0 false
      { globalsOk := true, cloexecOk := true, nonblockOk := true,
        objOk := true, mutexOk := true, nodelayOk := true,
        localFmtOk := true, remoteFmtOk := true }).2 ⟨4, 6, 0, true⟩ rfl).2.2.2.2
     (by decide),
   ((claim9_fd_ownership true true true 4 6 0 false
      { globalsOk := true, cloexecOk := true, nonblockOk := true,
        objOk := true, mutexOk := true, nodelayOk := true,
        localFmtOk := true, remoteFmtOk := true }).2 ⟨4, 6, 0, true⟩ rfl).2.2.1⟩

/-- Claim C10: a transient accept failure (ECONNABORTED or EAGAIN) returns
success 0 with a null client socket and closes nothing, a hard accept
failure returns -1, a non-null client socket is produced only with result 0
and wraps exactly the accepted descriptor with nothing closed, and whenever
the call fails after a descriptor was accepted, that descriptor is
closed. -/
theorem claim10_accept (gsOk isTcp : Bool) (o : NewOutcomes) :
    virNetSocketAccept AcceptOut.transientFail gsOk isTcp o = (0, none, []) ∧
    virNetSocketAccept AcceptOut.hardFail gsOk isTcp o = (-1, none, []) ∧
    (∀ (fd : Nat) (s : WireSock),
       (virNetSocketAccept (AcceptOut.accepted fd) gsOk isTcp o).2.1 = some s →
       (virNetSocketAccept (AcceptOut.accepted fd) gsOk isTcp o).1 = 0 ∧
       s.fd = (fd : Int) ∧
       (virNetSocketAccept (AcceptOut.accepted fd) gsOk isTcp o).2.2 = []) ∧
    (∀ (fd : Nat),
       (virNetSocketAccept (AcceptOut.accepted fd) gsOk isTcp o).1 = -1 →
       ((fd : Int)) ∈ (virNetSocketAccept (AcceptOut.accepted fd) gsOk isTcp o).2.2) := by
  refine ⟨rfl, rfl, ?_, ?_⟩
  · intro fd s hs
    obtain ⟨hcl, hsp⟩ :=
      virNetSocketNew_spec true true true ((fd : Nat) : Int) (-1) 0 isTcp o
    by_cases hg : gsOk
    · rcases hres : virNetSocketNew true true true ((fd : Nat) : Int) (-1) 0
          isTcp o with ⟨os, closed⟩
      have hclosed : closed = [] := by rw [hres] at hcl; exact hcl
      match os, hres with
      | none, hres =>
          rw [virNetSocketAccept.eq_def] at hs
          simp [hg, hres] at hs
      | some s2, hres =>
          have hs2 : s2 = ⟨((fd : Nat) : Int), -1, 0, true⟩ :=
            hsp s2 (by rw [hres])
          have hval : virNetSocketAccept (AcceptOut.accepted fd) gsOk isTcp o =
              (0, some s2, closed) := by
            rw [virNetSocketAccept.eq_def]
            simp [hg, hres]
          rw [hval] at hs ⊢
          have hss : s2 = s := by
            simpa using hs
          subst hss
          exact ⟨rfl, by rw [hs2], hclosed⟩
    · rw [virNetSocketAccept.eq_def] at hs
      simp [hg] at hs
  · intro fd h1
    obtain ⟨hcl, hsp⟩ :=
      virNetSocketNew_spec true true true ((fd : Nat) : Int) (-1) 0 isTcp o
    by_cases hg : gsOk
    · rcases hres : virNetSocketNew true true true ((fd : Nat) : Int) (-1) 0
          isTcp o with ⟨os, closed⟩
      match os, hres with
      | none, hres =>
          have hval : virNetSocketAccept (AcceptOut.accepted fd) gsOk isTcp o =
              (-1, none, closed ++ [((fd : Nat) : Int)]) := by
            rw [virNetSocketAccept.eq_def]
            simp [hg, hres]
          rw [hval]
          simp
      | some s2, hres =>
          have hval : virNetSocketAccept (AcceptOut.accepted fd) gsOk isTcp o =
              (0, some s2, closed) := by
            rw [virNetSocketAccept.eq_def]
            simp [hg, hres]
          rw [hval] at h1
          norm_num at h1
    · have hval : virNetSocketAccept (AcceptOut.accepted fd) gsOk isTcp o =
          (-1, none, [((fd : Nat) : Int)]) := by
        rw [virNetSocketAccept.eq_def]
        simp [hg]
      rw [hval]
      simp

/-- Claim C10, witness: concrete transient, success and failing accepts on
descriptor 8. -/
theorem claim10_accept_witness :
    (virNetSocketAccept AcceptOut.transientFail true false
       { globalsOk := true, cloexecOk := true, nonblockOk := true,
         objOk := true, mutexOk := true, nodelayOk := true,
         localFmtOk := true, remoteFmtOk := true } = (0, none, [])) ∧
    ((virNetSocketAccept (AcceptOut.accepted 8) true false
       { globalsOk := true, cloexecOk := true, nonblockOk := true,
         objOk := true, mutexOk := true, nodelayOk := true,
         localFmtOk := true, remoteFmtOk := true }).1 = 0 ∧
     ((⟨8, -1, 0, true⟩ : WireSock)).fd = ((8 : Nat) : Int) ∧
     (virNetSocketAccept (AcceptOut.accepted 8) true false
       { globalsOk := true, cloexecOk := true, nonblockOk := true,
         objOk := true, mutexOk := true, nodelayOk := true,
         localFmtOk := true, remoteFmtOk := true }).2.2 = []) ∧
    ((8 : Nat) : Int) ∈ (virNetSocketAccept (AcceptOut.accepted 8) false false
       { globalsOk := true, cloexecOk := true, nonblockOk := true,
         objOk := true, mutexOk := true, nodelayOk := true,
         localFmtOk := true, remoteFmtOk := true }).2.2 :=
  ⟨(claim10_accept true false
     { globalsOk := true, cloexecOk := true, nonblockOk := true,
       objOk := true, mutexOk := true, nodelayOk := true,
       localFmtOk := true, remoteFmtOk := true }).1,
   (claim10_accept true false
     { globalsOk := true, cloexecOk := true, nonblockOk := true,
       objOk := true, mutexOk := true, nodelayOk := true,
       localFmtOk := true, remoteFmtOk := true }).2.2.1 8 ⟨8, -1, 0, true⟩ rfl,
   (claim10_accept false false
     { globalsOk := true, cloexecOk := true, nonblockOk := true,
       objOk := true, mutexOk := true, nodelayOk := true,
       localFmtOk := true, remoteFmtOk := true }).2.2.2 8 rfl⟩

end LibvirtRPC
